import Mathlib

/-!
Shallow embedding of the superguide_api history CRUD service.

The definitions below are translated from the TypeScript sources:
- `src/lib/serializers.ts` (serializeHistory, isValidDatetime),
- `src/routes/histories.ts` (list / create / update / delete handlers,
  pagination parsing with DEFAULT_LIMIT / MAX_LIMIT),
- `src/routes/index.ts` (public vs authenticated mounting),
- the Firebase auth middleware and the global `app.onError` handler.

JavaScript machine details that the code relies on are modelled explicitly:
`parseInt(s, 10)`, truthiness of values, `String.prototype.split`,
`new Date(string)` (the ECMAScript Date Time String Format; the
implementation-defined fallback parsers are outside the model) and
`Date.prototype.toISOString`.  Database rows are lists of records; the
drizzle queries of the handlers (filter / order / limit / offset, update
and delete scoped by id and owner with RETURNING) are modelled as list
operations.  Numeric SQL values travel as `ℚ`: the code stores
`String(value)` into a NUMERIC(12, 2) column, which rounds the value to two
fractional digits (half away from zero) on write - modelled by `quantize2` -
and reads it back through `Number(...)`.
-/

/-- A JavaScript value as it appears in a parsed JSON request body. -/
inductive JSVal where
  | jnum (q : ℚ)
  | jstr (s : String)
  | jbool (b : Bool)
  | jnull
  deriving DecidableEq, Repr

/-- JavaScript truthiness test on an optional body field
(`none` models an absent field / `undefined`). -/
def jsFalsy : Option JSVal → Bool
  | none => true
  | some (JSVal.jnum q) => decide (q = 0)
  | some (JSVal.jstr s) => decide (s = "")
  | some (JSVal.jbool b) => !b
  | some JSVal.jnull => true

/-- Leading decimal digits of a character list (the prefix `parseInt` consumes). -/
def takeDigits : List Char → List Char
  | [] => []
  | c :: cs => if c.isDigit then c :: takeDigits cs else []

/-- Numeric value of a list of decimal digits. -/
def digitsToNat (ds : List Char) : Nat :=
  ds.foldl (fun a c => a * 10 + (c.toNat - 48)) 0

/-- Model of JavaScript `parseInt(s, 10)`: skip leading whitespace, read an
optional sign and then the longest prefix of decimal digits; `none` models
`NaN` (no digits found). -/
def parseIntJS (s : String) : Option Int :=
  let cs := s.data.dropWhile (fun c => c = ' ' ∨ c = '\t' ∨ c = '\n' ∨ c = '\r')
  match cs with
  | '-' :: rest =>
      let ds := takeDigits rest
      if ds.isEmpty then none else some (-(digitsToNat ds : Int))
  | '+' :: rest =>
      let ds := takeDigits rest
      if ds.isEmpty then none else some (digitsToNat ds : Int)
  | rest =>
      let ds := takeDigits rest
      if ds.isEmpty then none else some (digitsToNat ds : Int)

/-! ## Calendar arithmetic (proleptic Gregorian, as used by ECMAScript dates) -/

/-- Gregorian leap-year test. -/
def isLeap (y : Nat) : Bool :=
  (y % 4 == 0 && y % 100 != 0) || y % 400 == 0

/-- Number of days in a month of a given year. -/
def daysInMonth (y m : Nat) : Nat :=
  if m = 2 then (if isLeap y then 29 else 28)
  else if m = 4 ∨ m = 6 ∨ m = 9 ∨ m = 11 then 30
  else 31

/-- Days since the Unix epoch of a civil date (Gregorian calendar). -/
def daysFromCivil (y : Int) (m d : Nat) : Int :=
  let yAdj := y - (if m ≤ 2 then 1 else 0)
  let era := Int.fdiv yAdj 400
  let yoe := (yAdj - era * 400).toNat
  let mp := if 2 < m then m - 3 else m + 9
  let doy := (153 * mp + 2) / 5 + d - 1
  let doe := yoe * 365 + yoe / 4 - yoe / 100 + doy
  era * 146097 + (doe : Int) - 719468

/-- Civil date (year, month, day) of a day count since the Unix epoch. -/
def civilFromDays (z : Int) : Int × Nat × Nat :=
  let zs := z + 719468
  let era := Int.fdiv zs 146097
  let doe := (zs - era * 146097).toNat
  let yoe := (doe - doe / 1460 + doe / 36524 - doe / 146096) / 365
  let doy := doe - (365 * yoe + yoe / 4 - yoe / 100)
  let mp := (5 * doy + 2) / 153
  let d := doy - (153 * mp + 2) / 5 + 1
  let m := if mp < 10 then mp + 3 else mp - 9
  let y : Int := (yoe : Int) + era * 400 + (if m ≤ 2 then 1 else 0)
  (y, m, d)

/-- Left-pad the decimal rendering of a natural number with zeros to width `k`. -/
def padLeft (k : Nat) (n : Nat) : String :=
  let s := toString n
  String.mk (List.replicate (k - s.length) '0') ++ s

/-- Year component rendering of `Date.prototype.toISOString`: four digits for
years 0..9999, the expanded six-digit signed form outside that range. -/
def padYear (y : Int) : String :=
  if 0 ≤ y ∧ y < 10000 then padLeft 4 y.toNat
  else (if y < 0 then "-" else "+") ++ padLeft 6 y.natAbs

/-- Model of `Date.prototype.toISOString` on a time value in milliseconds
since the Unix epoch. -/
def toISOString (ms : Int) : String :=
  let day := Int.fdiv ms 86400000
  let rem := (ms - day * 86400000).toNat
  let ymd := civilFromDays day
  padYear ymd.1 ++ "-" ++ padLeft 2 ymd.2.1 ++ "-" ++ padLeft 2 ymd.2.2 ++
    "T" ++ padLeft 2 (rem / 3600000) ++ ":" ++ padLeft 2 (rem / 60000 % 60) ++
    ":" ++ padLeft 2 (rem / 1000 % 60) ++ "." ++ padLeft 3 (rem % 1000) ++ "Z"

/-! ## Model of `new Date(string)` (ECMAScript Date Time String Format) -/

/-- Read exactly `n` decimal digits, accumulating their value. -/
def readDigits : Nat → Nat → List Char → Option (Nat × List Char)
  | 0, acc, cs => some (acc, cs)
  | n + 1, acc, c :: cs =>
      if c.isDigit then readDigits n (acc * 10 + (c.toNat - 48)) cs else none
  | _ + 1, _, [] => none

/-- Date part `YYYY[-MM[-DD]]`; omitted month and day default to 1.
Out-of-range month or day makes the string invalid. -/
def parseDatePart (cs : List Char) : Option (Nat × Nat × Nat × List Char) :=
  match readDigits 4 0 cs with
  | none => none
  | some (y, cs1) =>
    match cs1 with
    | '-' :: cs2 =>
      match readDigits 2 0 cs2 with
      | none => none
      | some (m, cs3) =>
        if m < 1 ∨ 12 < m then none
        else
          match cs3 with
          | '-' :: cs4 =>
            match readDigits 2 0 cs4 with
            | none => none
            | some (d, cs5) =>
              if d < 1 ∨ daysInMonth y m < d then none
              else some (y, m, d, cs5)
          | _ => some (y, m, 1, cs3)
    | _ => some (y, 1, 1, cs1)

/-- Wall-clock time components of a parsed time string. -/
structure TimeParts where
  hh : Nat
  mm : Nat
  ss : Nat
  ms : Nat
  deriving DecidableEq, Repr

/-- Optional `.sss` milliseconds part (three digits). -/
def parseMillis (cs : List Char) : Option (Nat × List Char) :=
  match cs with
  | '.' :: cs1 =>
    match readDigits 3 0 cs1 with
    | none => none
    | some (v, cs2) => some (v, cs2)
  | _ => some (0, cs)

/-- Time part `HH:mm[:ss[.sss]]`. -/
def parseTimePart (cs : List Char) : Option (TimeParts × List Char) :=
  match readDigits 2 0 cs with
  | none => none
  | some (hh, cs1) =>
    match cs1 with
    | ':' :: cs2 =>
      match readDigits 2 0 cs2 with
      | none => none
      | some (mm, cs3) =>
        match cs3 with
        | ':' :: cs4 =>
          match readDigits 2 0 cs4 with
          | none => none
          | some (ss, cs5) =>
            match parseMillis cs5 with
            | none => none
            | some (ms, cs6) => some (⟨hh, mm, ss, ms⟩, cs6)
        | _ => some (⟨hh, mm, 0, 0⟩, cs3)
    | _ => none

/-- Range validity of wall-clock components (`24:00:00.000` is allowed). -/
def timeValid (t : TimeParts) : Bool :=
  (t.hh ≤ 23 && t.mm ≤ 59 && t.ss ≤ 59) ||
  (t.hh == 24 && t.mm == 0 && t.ss == 0 && t.ms == 0)

/-- Time-zone tail: end of input (local time), `Z`, or `±HH:mm`; the zone must
end the string.  The result is the offset in minutes east of UTC, `none` for
local time. -/
def parseZoneTail : List Char → Option (Option Int)
  | [] => some none
  | ['Z'] => some (some 0)
  | '+' :: cs =>
    (match readDigits 2 0 cs with
     | none => none
     | some (hh, cs1) =>
       match cs1 with
       | ':' :: cs2 =>
         (match readDigits 2 0 cs2 with
          | some (mm, []) =>
            if hh ≤ 23 ∧ mm ≤ 59 then some (some ((hh : Int) * 60 + mm)) else none
          | _ => none)
       | _ => none)
  | '-' :: cs =>
    (match readDigits 2 0 cs with
     | none => none
     | some (hh, cs1) =>
       match cs1 with
       | ':' :: cs2 =>
         (match readDigits 2 0 cs2 with
          | some (mm, []) =>
            if hh ≤ 23 ∧ mm ≤ 59 then some (some (-((hh : Int) * 60 + mm))) else none
          | _ => none)
       | _ => none)
  | _ => none

/-- Model of `new Date(s).getTime()`: `none` models `NaN` (an invalid date).
`tz` is the environment's local offset in minutes east of UTC, used for
date-time strings without a zone designator (date-only strings are UTC). -/
def jsNewDate (tz : Int) (s : String) : Option Int :=
  match parseDatePart s.data with
  | none => none
  | some (y, m, d, rest) =>
    match rest with
    | [] => some (daysFromCivil (y : Int) m d * 86400000)
    | 'T' :: rest1 =>
      match parseTimePart rest1 with
      | none => none
      | some (t, rest2) =>
        if timeValid t = false then none
        else
          match parseZoneTail rest2 with
          | none => none
          | some zopt =>
            let base := daysFromCivil (y : Int) m d * 86400000 +
              ((t.hh * 3600000 + t.mm * 60000 + t.ss * 1000 + t.ms : Nat) : Int)
            match zopt with
            | some off => some (base - off * 60000)
            | none => some (base - tz * 60000)
    | _ => none

/-- From `src/lib/serializers.ts`: `isValidDatetime` builds `new Date(datetime)`
and checks that its time value is not `NaN`. -/
def isValidDatetime (tz : Int) (datetime : String) : Bool :=
  (jsNewDate tz datetime).isSome

/-! ## Data model and serialization -/

/-- A row of the `starter.histories` table.  `datetime` holds the stored
timestamp as a time value (milliseconds since the Unix epoch); `value` holds
the NUMERIC amount; `created_at` / `updated_at` are nullable timestamps. -/
structure HistoryRow where
  id : String
  user_id : String
  datetime : Int
  value : ℚ
  created_at : Option Int
  updated_at : Option Int
  deriving DecidableEq, Repr

/-- A history record as serialized onto the wire. -/
structure SerializedHistory where
  id : String
  user_id : String
  datetime : String
  value : ℚ
  created_at : Option String
  updated_at : Option String
  deriving DecidableEq, Repr

/-- From `src/lib/serializers.ts`: timestamps render as ISO-8601 strings
(nullable ones as null), and the numeric-as-text value column becomes a
number again. -/
def serializeHistory (h : HistoryRow) : SerializedHistory :=
  { id := h.id
    user_id := h.user_id
    datetime := toISOString h.datetime
    value := h.value
    created_at := h.created_at.map toISOString
    updated_at := h.updated_at.map toISOString }

/-- Payload of a successful response. -/
inductive RespBody where
  | histories (hs : List SerializedHistory)
  | history (h : SerializedHistory)
  | nullData
  | totalValue (t : ℚ)
  deriving DecidableEq, Repr

/-- An HTTP response of the API: either a success envelope with a status and a
payload, or an error envelope with a status and a message. -/
inductive Resp where
  | ok (status : Nat) (body : RespBody)
  | err (status : Nat) (msg : String)
  deriving DecidableEq, Repr

/-- Whether a response is a success envelope. -/
def Resp.isOk : Resp → Bool
  | .ok _ _ => true
  | .err _ _ => false

/-! ## Pagination parsing (`src/routes/histories.ts`) -/

/-- Default number of history records returned per page. -/
def DEFAULT_LIMIT : Int := 50

/-- Maximum number of history records that can be requested in a single page. -/
def MAX_LIMIT : Int := 200

/-- The limit clamp of the list handler:
`Math.min(Math.max(1, parseInt(limitParam || String(DEFAULT_LIMIT), 10) || DEFAULT_LIMIT), MAX_LIMIT)`.
An absent or empty query string is falsy and replaced by the default string;
a `NaN` or zero parse result is falsy and replaced by the default number. -/
def effectiveLimit (limitParam : Option String) : Int :=
  let s := match limitParam with
    | none => toString DEFAULT_LIMIT
    | some v => if v = "" then toString DEFAULT_LIMIT else v
  let n := match parseIntJS s with
    | none => DEFAULT_LIMIT
    | some v => if v = 0 then DEFAULT_LIMIT else v
  min (max 1 n) MAX_LIMIT

/-- The offset floor of the list handler:
`Math.max(0, parseInt(offsetParam || "0", 10) || 0)`. -/
def effectiveOffset (offsetParam : Option String) : Int :=
  let s := match offsetParam with
    | none => "0"
    | some v => if v = "" then "0" else v
  let n := match parseIntJS s with
    | none => (0 : Int)
    | some v => v
  max 0 n

/-- The order direction of the list handler:
`orderByParam === "asc" ? "asc" : "desc"`; `true` means ascending. -/
def ascOrder (orderByParam : Option String) : Bool :=
  orderByParam == some "asc"

/-- Insert a row into a list sorted by `le`. -/
def insertByLe (le : HistoryRow → HistoryRow → Bool) (x : HistoryRow) :
    List HistoryRow → List HistoryRow
  | [] => [x]
  | y :: ys => if le x y then x :: y :: ys else y :: insertByLe le x ys

/-- Insertion sort of the rows by `le` (models the ORDER BY of the query). -/
def sortRows (le : HistoryRow → HistoryRow → Bool) : List HistoryRow → List HistoryRow
  | [] => []
  | x :: xs => insertByLe le x (sortRows le xs)

/-- Predicate of the update / delete WHERE clause:
`and(eq(histories.id, historyId), eq(histories.user_id, userId))`. -/
def rowMatches (historyId userId : String) (r : HistoryRow) : Bool :=
  r.id == historyId && r.user_id == userId

/-! ## History route handlers (`src/routes/histories.ts`)

Every handler receives the identity context set by the auth middleware
(`tokenUserId`, `siteAdmin`), the route parameters, and the current list of
database rows; it returns the response together with the resulting rows. -/

/-- Query parameters of the list operation. -/
structure ListQuery where
  limit : Option String
  offset : Option String
  orderBy : Option String
  deriving DecidableEq, Repr

/-- GET `/users/:userId/histories`: ownership check, pagination parsing,
select scoped to the owner ordered by datetime, slice, serialize. -/
def listHistories (tokenUserId : String) (siteAdmin : Bool) (userId : String)
    (q : ListQuery) (db : List HistoryRow) : Resp × List HistoryRow :=
  if userId ≠ tokenUserId ∧ siteAdmin = false then
    (.err 403 "Not authorized", db)
  else
    let lim := effectiveLimit q.limit
    let off := effectiveOffset q.offset
    let le := if ascOrder q.orderBy then
        fun (r₁ r₂ : HistoryRow) => decide (r₁.datetime ≤ r₂.datetime)
      else
        fun (r₁ r₂ : HistoryRow) => decide (r₂.datetime ≤ r₁.datetime)
    let rows := sortRows le (db.filter (fun r => r.user_id == userId))
    let page := (rows.drop off.toNat).take lim.toNat
    (.ok 200 (.histories (page.map serializeHistory)), db)

/-- Storage rounding of the `starter.histories.value` column: the handlers
write `String(value)` into a NUMERIC(12, 2) column (`src/db/index.ts`), which
Postgres rounds to two fractional digits, half away from zero.  Computed on
the numerator and denominator with integer arithmetic; the result is the
rational cents/100.  A value at or beyond precision 12 (abs value of at least
10^10) would raise a storage error instead of being stored; no claim here
exercises that range. -/
def quantize2 (q : ℚ) : ℚ :=
  let cents : Int :=
    if 0 ≤ q.num then Int.fdiv (200 * q.num + (q.den : Int)) (2 * (q.den : Int))
    else -(Int.fdiv (200 * (-q.num) + (q.den : Int)) (2 * (q.den : Int)))
  mkRat cents 100

/-- Request body of the create operation. -/
structure CreateBody where
  datetime : Option JSVal
  value : Option JSVal
  deriving DecidableEq, Repr

/-- POST `/users/:userId/histories`: ownership check, then
`!datetime || value === undefined || value === null`, then the value type and
positivity check, then the datetime string validity check, then the insert.
`newId` and `now` stand for the database's generated UUID and `NOW()`. -/
def createHistory (tokenUserId : String) (siteAdmin : Bool) (userId : String)
    (body : CreateBody) (tz : Int) (newId : String) (now : Int)
    (db : List HistoryRow) : Resp × List HistoryRow :=
  if userId ≠ tokenUserId ∧ siteAdmin = false then
    (.err 403 "Not authorized", db)
  else if jsFalsy body.datetime = true ∨ body.value = none ∨ body.value = some JSVal.jnull then
    (.err 400 "datetime and value are required", db)
  else
    match body.value with
    | some (JSVal.jnum q) =>
      if q ≤ 0 then (.err 400 "value must be a positive number", db)
      else
        match body.datetime with
        | some (JSVal.jstr s) =>
          if isValidDatetime tz s = false then
            (.err 400 "datetime must be a valid ISO 8601 date string", db)
          else
            let row : HistoryRow :=
              { id := newId, user_id := userId,
                datetime := (jsNewDate tz s).getD 0, value := quantize2 q,
                created_at := some now, updated_at := some now }
            (.ok 201 (.history (serializeHistory row)), db ++ [row])
        | _ => (.err 400 "datetime must be a valid ISO 8601 date string", db)
    | _ => (.err 400 "value must be a positive number", db)

/-- Request body of the partial update operation. -/
structure UpdateBody where
  datetime : Option JSVal
  value : Option JSVal
  deriving DecidableEq, Repr

/-- Validation of a present `datetime` body field of the update handler:
absent fields pass through, a present field must be a string accepted by
`isValidDatetime`; the result is the parsed timestamp to store. -/
def checkDatetimeField (tz : Int) : Option JSVal → Except Resp (Option Int)
  | none => .ok none
  | some (JSVal.jstr s) =>
      if isValidDatetime tz s then .ok (some ((jsNewDate tz s).getD 0))
      else .error (.err 400 "datetime must be a valid ISO 8601 date string")
  | some _ => .error (.err 400 "datetime must be a valid ISO 8601 date string")

/-- Validation of a present `value` body field of the update handler. -/
def checkValueField : Option JSVal → Except Resp (Option ℚ)
  | none => .ok none
  | some (JSVal.jnum q) =>
      if q ≤ 0 then .error (.err 400 "value must be a positive number")
      else .ok (some q)
  | some _ => .error (.err 400 "value must be a positive number")

/-- PUT `/users/:userId/histories/:historyId`: ownership check, per-field
validation building the update set, "No fields to update" when the set is
empty, `updated_at` always refreshed, UPDATE scoped by id and owner with
RETURNING, 404 when no row was affected. -/
def updateHistory (tokenUserId : String) (siteAdmin : Bool)
    (userId historyId : String) (body : UpdateBody) (tz : Int) (now : Int)
    (db : List HistoryRow) : Resp × List HistoryRow :=
  if userId ≠ tokenUserId ∧ siteAdmin = false then
    (.err 403 "Not authorized", db)
  else
    match checkDatetimeField tz body.datetime with
    | .error r => (r, db)
    | .ok dtUpd =>
      match checkValueField body.value with
      | .error r => (r, db)
      | .ok valUpd =>
        if dtUpd = none ∧ valUpd = none then
          (.err 400 "No fields to update", db)
        else
          let applyUpd := fun (r : HistoryRow) =>
            { r with datetime := dtUpd.getD r.datetime,
                     value := (valUpd.map quantize2).getD r.value,
                     updated_at := some now }
          let ret := (db.filter (rowMatches historyId userId)).map applyUpd
          let db2 := db.map (fun r =>
            if rowMatches historyId userId r then applyUpd r else r)
          match ret with
          | [] => (.err 404 "History not found", db2)
          | h :: _ => (.ok 200 (.history (serializeHistory h)), db2)

/-- DELETE `/users/:userId/histories/:historyId`: ownership check, DELETE
scoped by id and owner with RETURNING, 404 when no row was affected,
success envelope with a null payload otherwise. -/
def deleteHistory (tokenUserId : String) (siteAdmin : Bool)
    (userId historyId : String) (db : List HistoryRow) :
    Resp × List HistoryRow :=
  if userId ≠ tokenUserId ∧ siteAdmin = false then
    (.err 403 "Not authorized", db)
  else
    let ret := db.filter (rowMatches historyId userId)
    let db2 := db.filter (fun r => !(rowMatches historyId userId r))
    if ret.isEmpty then (.err 404 "History not found", db2)
    else (.ok 200 .nullData, db2)

/-- Modelled from the spec: the public aggregate-total handler
(`src/routes/historiesTotal.ts`) is absent from the provided sources; only its
mounting in `src/routes/index.ts` is present.  Per the spec (4.7): no
authorization check; it computes the sum of the value field across all history
records system-wide, treating "no records" as zero, and returns the numeric
total in the success envelope. -/
def historiesTotalHandler (db : List HistoryRow) : Resp :=
  .ok 200 (.totalValue (db.foldl (fun a r => a + r.value) 0))

/-- From `src/routes/index.ts`: the total route is mounted on the public
router, before (and outside) the sub-router that installs
`firebaseAuthMiddleware`, so the credential of the request never reaches it. -/
def handleTotalRequest (_authHeader : Option String) (db : List HistoryRow) :
    Resp :=
  historiesTotalHandler db

/-! ## Firebase auth middleware and the global error handler -/

/-- Split a character list at every space, like `String.prototype.split(" ")`
(adjacent separators produce empty fields). -/
def splitSpaceAux : List Char → List Char → List String
  | [], acc => [String.mk acc.reverse]
  | c :: cs, acc =>
      if c = ' ' then String.mk acc.reverse :: splitSpaceAux cs []
      else splitSpaceAux cs (c :: acc)

/-- Model of JavaScript `s.split(" ")`. -/
def jsSplitSpace (s : String) : List String :=
  splitSpaceAux s.data []

/-- The decoded Firebase ID token as the middleware consumes it: the uid, the
optional email claim, and the verdict of the external `isAnonymousUser`. -/
structure DecodedToken where
  uid : String
  email : Option String
  anonymous : Bool
  deriving DecidableEq, Repr

/-- The per-request identity context the middleware sets for downstream
handlers (`userId`, `userEmail`, `siteAdmin`). -/
structure AuthCtx where
  userId : String
  userEmail : Option String
  siteAdmin : Bool
  deriving DecidableEq, Repr

/-- Model of `firebaseAuthMiddleware`.  `verify` stands for the external
`verifyIdToken` (an exception modelled as `Except.error`), `isAdmin` for the
external allow-list check `isSiteAdmin`.  `next` is the downstream chain: it
receives the context the middleware sets and either returns a response or
throws.  The `try` block of the source wraps the verification, the anonymous
check, the context writes AND the `await next()` call, so an exception thrown
anywhere under it - including by the downstream handler - produces the
middleware's 401 response. -/
def firebaseAuthMiddleware (verify : String → Except Unit DecodedToken)
    (isAdmin : Option String → Bool) (authHeader : Option String)
    (next : AuthCtx → Except Unit Resp) : Resp :=
  match authHeader with
  | none => .err 401 "Authorization header required"
  | some h =>
    if h = "" then .err 401 "Authorization header required"
    else
      let parts := jsSplitSpace h
      let ty := parts.headD ""
      let token := (parts.drop 1).headD ""
      if ty ≠ "Bearer" ∨ token = "" then
        .err 401 "Invalid authorization format. Use: Bearer <token>"
      else
        match verify token with
        | .error _ => .err 401 "Invalid or expired Firebase token"
        | .ok tok =>
          if tok.anonymous then
            .err 403 "Anonymous users cannot access this resource"
          else
            match next ⟨tok.uid, tok.email, isAdmin tok.email⟩ with
            | .ok r => r
            | .error _ => .err 401 "Invalid or expired Firebase token"

/-- Model of the global `app.onError` handler: an exception that actually
escapes the routing chain is turned into the fixed internal-error response. -/
def onErrorWrap : Except Unit Resp → Resp
  | .ok r => r
  | .error _ => .err 500 "Internal server error"

/-- A concrete token verifier used to exercise the middleware: "good" verifies
to a regular user, "anon" to an anonymous principal, everything else throws. -/
def verifyStub : String → Except Unit DecodedToken := fun t =>
  if t = "good" then .ok ⟨"user-1", some "user@example.com", false⟩
  else if t = "anon" then .ok ⟨"anon-1", none, true⟩
  else .error ()

/-- A concrete site-admin allow-list predicate. -/
def admStub : Option String → Bool := fun e => e == some "admin@example.com"

/-! ## Helper lemmas -/

theorem filter_nil_of_no_match {α : Type} {p : α → Bool} :
    ∀ {l : List α}, (∀ r ∈ l, p r = false) → l.filter p = [] := by
  intro l
  induction l with
  | nil => intro _; rfl
  | cons r rs ih =>
    intro h
    simp only [List.filter]
    rw [h r (List.mem_cons_self r rs)]
    exact ih (fun x hx => h x (List.mem_cons_of_mem r hx))

theorem no_match_of_filter_nil {α : Type} {p : α → Bool} :
    ∀ {l : List α}, l.filter p = [] → ∀ r ∈ l, p r = false := by
  intro l
  induction l with
  | nil => intro _ r hr; exact absurd hr (List.not_mem_nil r)
  | cons x xs ih =>
    intro h r hr
    simp only [List.filter] at h
    rcases hp : p x with _ | _
    · rw [hp] at h
      rcases List.mem_cons.mp hr with he | hm
      · rw [he]; exact hp
      · exact ih h r hm
    · rw [hp] at h; exact List.noConfusion h

theorem map_if_eq_self {α : Type} {p : α → Bool} {f : α → α} :
    ∀ {l : List α}, (∀ r ∈ l, p r = false) →
      l.map (fun r => if p r then f r else r) = l := by
  intro l
  induction l with
  | nil => intro _; rfl
  | cons x xs ih =>
    intro h
    simp only [List.map]
    rw [h x (List.mem_cons_self x xs)]
    simp only [Bool.false_eq_true, if_false]
    rw [ih (fun r hr => h r (List.mem_cons_of_mem x hr))]

theorem filter_not_eq_self {α : Type} {p : α → Bool} :
    ∀ {l : List α}, (∀ r ∈ l, p r = false) →
      l.filter (fun r => !(p r)) = l := by
  intro l
  induction l with
  | nil => intro _; rfl
  | cons x xs ih =>
    intro h
    simp only [List.filter]
    rw [h x (List.mem_cons_self x xs)]
    simp only [Bool.not_false]
    rw [ih (fun r hr => h r (List.mem_cons_of_mem x hr))]

/-! ## C1 -/

/-- C1 counterexample: the query string "0" parses as the integer 0, which is
less than or equal to 0, yet the effective limit is the default 50, not the
clamped 1 the claim asserts (`0` is falsy in JavaScript, so `parseInt(..) || 50`
falls back to the default before the clamp is reached). -/
theorem effectiveLimit_claim_counterexample :
    parseIntJS "0" = some 0 ∧ (0 : Int) ≤ 0 ∧
    effectiveLimit (some "0") = 50 ∧ (50 : Int) ≠ 1 := by
  decide

/-- C1 (amended): an absent or non-numeric `limit` resolves to 50; a `limit`
parsing to a *negative* integer resolves to 1 (floored by the clamp); a
`limit` parsing to exactly 0 falls back to the default 50 (it is falsy before
the clamp is reached); any `limit` parsing to at least 200 resolves to exactly
200; "-5" yields 1 and the non-numeric "abc" yields 50. -/
theorem effectiveLimit_amended_spec :
    effectiveLimit none = 50
  ∧ (∀ s : String, parseIntJS s = none → effectiveLimit (some s) = 50)
  ∧ (∀ (s : String) (v : Int), parseIntJS s = some v → v < 0 →
      effectiveLimit (some s) = 1)
  ∧ (∀ s : String, parseIntJS s = some 0 → effectiveLimit (some s) = 50)
  ∧ (∀ (s : String) (v : Int), parseIntJS s = some v → 200 ≤ v →
      effectiveLimit (some s) = 200)
  ∧ effectiveLimit (some "-5") = 1 ∧ effectiveLimit (some "abc") = 50 := by
  have hempty : parseIntJS "" = none := by decide
  refine ⟨by decide, ?_, ?_, ?_, ?_, by decide, by decide⟩
  · intro s h
    by_cases hs : s = ""
    · rw [hs]; decide
    · simp only [effectiveLimit, if_neg hs, h]
      decide
  · intro s v h hv
    have hs : s ≠ "" := by
      intro he; rw [he, hempty] at h; exact Option.noConfusion h
    simp only [effectiveLimit, DEFAULT_LIMIT, MAX_LIMIT, if_neg hs, h]
    rw [if_neg (by omega : ¬ v = 0)]
    omega
  · intro s h
    have hs : s ≠ "" := by
      intro he; rw [he, hempty] at h; exact Option.noConfusion h
    simp only [effectiveLimit, DEFAULT_LIMIT, MAX_LIMIT, if_neg hs, h]
    decide
  · intro s v h hv
    have hs : s ≠ "" := by
      intro he; rw [he, hempty] at h; exact Option.noConfusion h
    simp only [effectiveLimit, DEFAULT_LIMIT, MAX_LIMIT, if_neg hs, h]
    rw [if_neg (by omega : ¬ v = 0)]
    omega

/-- C1 witness: the amended statement applied at "-5" (negative → clamped to 1),
"abc" (non-numeric → default 50) and "500" (≥ 200 → capped at 200). -/
theorem effectiveLimit_amended_spec_witness :
    effectiveLimit (some "-5") = 1 ∧ effectiveLimit (some "abc") = 50 ∧
    effectiveLimit (some "500") = 200 := by
  exact ⟨effectiveLimit_amended_spec.2.2.1 "-5" (-5) (by decide) (by decide),
         effectiveLimit_amended_spec.2.1 "abc" (by decide),
         effectiveLimit_amended_spec.2.2.2.2.1 "500" 500 (by decide) (by decide)⟩

/-! ## C2 -/

/-- C2 (code bug): the `try` block of `firebaseAuthMiddleware` wraps the
`await next()` call, so an exception thrown by the downstream route handler of
any authenticated route is caught by the middleware's `catch` and answered
with 401 "Invalid or expired Firebase token" - it never reaches `app.onError`,
which would have produced the generic 500 response the claim (and the
middleware's own documentation) describe.  Here the token verifies fine and
the handler throws, yet the client sees the 401 token error. -/
theorem authMiddleware_swallows_handler_errors :
    firebaseAuthMiddleware verifyStub admStub (some "Bearer good")
        (fun _ => .error ())
      = .err 401 "Invalid or expired Firebase token"
  ∧ onErrorWrap (.error ()) = .err 500 "Internal server error"
  ∧ Resp.err 401 "Invalid or expired Firebase token"
      ≠ Resp.err 500 "Internal server error" := by
  refine ⟨by decide, rfl, by decide⟩

/-! ## C8 -/

/-- C8: `isValidDatetime` accepts exactly the strings whose `new Date(...)`
time value is not NaN, for every environment time zone: true for the valid
instants including a date-only string and a string without a trailing zone
marker, false for "not-a-date" and the empty string. -/
theorem isValidDatetime_spec :
    (∀ (tz : Int) (s : String), isValidDatetime tz s = (jsNewDate tz s).isSome)
  ∧ (∀ tz : Int, isValidDatetime tz "not-a-date" = false)
  ∧ (∀ tz : Int, isValidDatetime tz "" = false)
  ∧ (∀ tz : Int, isValidDatetime tz "2024-01-15T10:30:00.000Z" = true)
  ∧ (∀ tz : Int, isValidDatetime tz "2024-01-15" = true)
  ∧ (∀ tz : Int, isValidDatetime tz "2024-01-15T10:30:00" = true) := by
  exact ⟨fun _ _ => rfl, fun _ => rfl, fun _ => rfl, fun _ => rfl,
         fun _ => rfl, fun _ => rfl⟩

/-! ## C10 -/

/-- C10: a create request whose `datetime` body field is the empty string is
answered with the missing-field message "datetime and value are required"
regardless of the `value` field: the empty string is falsy, so the
`!datetime` check fires before the datetime validator is ever consulted, and
the message differs from the invalid-datetime one. -/
theorem create_empty_datetime_spec :
    (∀ (u newId : String) (tz now : Int) (db : List HistoryRow) (v : Option JSVal),
      createHistory u false u ⟨some (JSVal.jstr ""), v⟩ tz newId now db
        = (.err 400 "datetime and value are required", db))
  ∧ Resp.err 400 "datetime and value are required"
      ≠ Resp.err 400 "datetime must be a valid ISO 8601 date string" := by
  constructor
  · intro u newId tz now db v
    simp [createHistory, jsFalsy]
  · decide

/-! ## C3 -/

/-- C3: when the path `userId` differs from the token uid and the requester is
not a site admin, the list, create, update and delete handlers answer 403
"Not authorized" and leave the stored rows untouched (the response does not
depend on the stored rows at all); the public total endpoint ignores the
credential entirely and always answers with a success envelope. -/
theorem ownership_forbidden_spec :
    (∀ (tuid uid : String) (q : ListQuery) (db : List HistoryRow),
      uid ≠ tuid →
      listHistories tuid false uid q db = (.err 403 "Not authorized", db))
  ∧ (∀ (tuid uid newId : String) (body : CreateBody) (tz now : Int)
        (db : List HistoryRow),
      uid ≠ tuid →
      createHistory tuid false uid body tz newId now db
        = (.err 403 "Not authorized", db))
  ∧ (∀ (tuid uid hid : String) (body : UpdateBody) (tz now : Int)
        (db : List HistoryRow),
      uid ≠ tuid →
      updateHistory tuid false uid hid body tz now db
        = (.err 403 "Not authorized", db))
  ∧ (∀ (tuid uid hid : String) (db : List HistoryRow),
      uid ≠ tuid →
      deleteHistory tuid false uid hid db = (.err 403 "Not authorized", db))
  ∧ (∀ (hdr : Option String) (db : List HistoryRow),
      handleTotalRequest hdr db = historiesTotalHandler db)
  ∧ (∀ db : List HistoryRow, (handleTotalRequest none db).isOk = true) := by
  refine ⟨?_, ?_, ?_, ?_, fun _ _ => rfl, fun _ => rfl⟩
  · intro tuid uid q db h
    simp [listHistories, h]
  · intro tuid uid newId body tz now db h
    simp [createHistory, h]
  · intro tuid uid hid body tz now db h
    simp [updateHistory, h]
  · intro tuid uid hid db h
    simp [deleteHistory, h]

/-- C3 witness: the forbidden case exercised at concrete mismatching ids for
all four handlers, and the public total endpoint succeeding with no
credential over a non-empty store. -/
theorem ownership_forbidden_spec_witness :
    listHistories "u1" false "u2" ⟨none, none, none⟩ []
      = (.err 403 "Not authorized", [])
  ∧ createHistory "u1" false "u2" ⟨none, none⟩ 0 "h1" 0 []
      = (.err 403 "Not authorized", [])
  ∧ updateHistory "u1" false "u2" "h1" ⟨none, none⟩ 0 0 []
      = (.err 403 "Not authorized", [])
  ∧ deleteHistory "u1" false "u2" "h1" [] = (.err 403 "Not authorized", [])
  ∧ (handleTotalRequest none [⟨"h1", "u1", 0, 5, none, none⟩]).isOk = true := by
  exact ⟨ownership_forbidden_spec.1 "u1" "u2" _ _ (by decide),
         ownership_forbidden_spec.2.1 "u1" "u2" "h1" _ 0 0 _ (by decide),
         ownership_forbidden_spec.2.2.1 "u1" "u2" "h1" _ 0 0 _ (by decide),
         ownership_forbidden_spec.2.2.2.1 "u1" "u2" "h1" _ (by decide),
         ownership_forbidden_spec.2.2.2.2.2 _⟩

/-! ## C4 -/

/-- The second component of a delete is always the rows with the matching
id-and-owner predicate filtered out, whatever the 404 outcome. -/
theorem deleteHistory_snd (u hid : String) (db : List HistoryRow) :
    (deleteHistory u false u hid db).2
      = db.filter (fun r => !(rowMatches hid u r)) := by
  simp only [deleteHistory]
  rw [if_neg (by simp : ¬(u ≠ u ∧ True))]
  split <;> rfl

/-- C4: the update and delete storage operations match by both record id and
owner id; when no row matches, the response is 404 "History not found" and the
rows are unchanged.  A record id owned by a different user therefore yields
the same 404 as a nonexistent id (for update as well as delete), and deleting
a second time yields 404 without changing any state. -/
theorem update_delete_notfound_spec :
    (∀ (u hid : String) (body : UpdateBody) (tz now : Int) (db : List HistoryRow)
        (dtUpd : Option Int) (valUpd : Option ℚ),
      checkDatetimeField tz body.datetime = .ok dtUpd →
      checkValueField body.value = .ok valUpd →
      ¬(dtUpd = none ∧ valUpd = none) →
      db.filter (rowMatches hid u) = [] →
      updateHistory u false u hid body tz now db
        = (.err 404 "History not found", db))
  ∧ (∀ (u hid : String) (db : List HistoryRow),
      db.filter (rowMatches hid u) = [] →
      deleteHistory u false u hid db = (.err 404 "History not found", db))
  ∧ (∀ (u hid : String) (body : UpdateBody) (tz now : Int) (db : List HistoryRow)
        (dtUpd : Option Int) (valUpd : Option ℚ),
      checkDatetimeField tz body.datetime = .ok dtUpd →
      checkValueField body.value = .ok valUpd →
      ¬(dtUpd = none ∧ valUpd = none) →
      (∀ r ∈ db, r.id = hid → r.user_id ≠ u) →
      updateHistory u false u hid body tz now db
        = (.err 404 "History not found", db))
  ∧ (∀ (u hid : String) (db : List HistoryRow),
      (∀ r ∈ db, r.id = hid → r.user_id ≠ u) →
      deleteHistory u false u hid db = (.err 404 "History not found", db))
  ∧ (∀ (u hid : String) (db : List HistoryRow),
      deleteHistory u false u hid ((deleteHistory u false u hid db).2)
        = (.err 404 "History not found", (deleteHistory u false u hid db).2)) := by
  have hmatch_of_owner : ∀ (u hid : String) (db : List HistoryRow),
      (∀ r ∈ db, r.id = hid → r.user_id ≠ u) →
      db.filter (rowMatches hid u) = [] := by
    intro u hid db h
    refine filter_nil_of_no_match ?_
    intro r hr
    unfold rowMatches
    by_cases hi : r.id = hid
    · have := h r hr hi
      simp [hi, this]
    · simp [hi]
  have hupd : ∀ (u hid : String) (body : UpdateBody) (tz now : Int)
      (db : List HistoryRow) (dtUpd : Option Int) (valUpd : Option ℚ),
      checkDatetimeField tz body.datetime = .ok dtUpd →
      checkValueField body.value = .ok valUpd →
      ¬(dtUpd = none ∧ valUpd = none) →
      db.filter (rowMatches hid u) = [] →
      updateHistory u false u hid body tz now db
        = (.err 404 "History not found", db) := by
    intro u hid body tz now db dtUpd valUpd hdt hval hne hfil
    have hnone : ∀ r ∈ db, rowMatches hid u r = false :=
      no_match_of_filter_nil hfil
    simp only [updateHistory]
    rw [if_neg (by simp : ¬(u ≠ u ∧ True))]
    rw [hdt, hval]
    simp only [if_neg hne]
    rw [hfil]
    simp only [List.map_nil]
    rw [map_if_eq_self hnone]
  have hdel : ∀ (u hid : String) (db : List HistoryRow),
      db.filter (rowMatches hid u) = [] →
      deleteHistory u false u hid db = (.err 404 "History not found", db) := by
    intro u hid db hfil
    have hnone : ∀ r ∈ db, rowMatches hid u r = false :=
      no_match_of_filter_nil hfil
    simp only [deleteHistory]
    rw [if_neg (by simp : ¬(u ≠ u ∧ True))]
    rw [hfil]
    simp only [List.isEmpty_nil, if_true]
    rw [filter_not_eq_self hnone]
  refine ⟨hupd, hdel, ?_, ?_, ?_⟩
  · intro u hid body tz now db dtUpd valUpd hdt hval hne hown
    exact hupd u hid body tz now db dtUpd valUpd hdt hval hne
      (hmatch_of_owner u hid db hown)
  · intro u hid db hown
    exact hdel u hid db (hmatch_of_owner u hid db hown)
  · intro u hid db
    rw [deleteHistory_snd]
    refine hdel u hid _ ?_
    refine filter_nil_of_no_match ?_
    intro r hr
    have := List.mem_filter.mp hr
    have hb := this.2
    rcases hp : rowMatches hid u r with _ | _
    · rfl
    · rw [hp] at hb; exact absurd hb (by decide)

/-- C4 witness: a store holding one record of user "u2" with id "h1": user
"u1" updating or deleting "h1" gets 404 with the store unchanged (both for
the empty-match formulation and the different-owner formulation), and a second
delete of an already-deleted record also answers 404. -/
theorem update_delete_notfound_spec_witness :
    updateHistory "u1" false "u1" "h1" ⟨none, some (JSVal.jnum 7)⟩ 0 9
        [⟨"h1", "u2", 0, 5, none, none⟩]
      = (.err 404 "History not found", [⟨"h1", "u2", 0, 5, none, none⟩])
  ∧ deleteHistory "u1" false "u1" "h1" [⟨"h1", "u2", 0, 5, none, none⟩]
      = (.err 404 "History not found", [⟨"h1", "u2", 0, 5, none, none⟩])
  ∧ deleteHistory "u1" false "u1" "h1"
        ((deleteHistory "u1" false "u1" "h1" [⟨"h1", "u1", 0, 5, none, none⟩]).2)
      = (.err 404 "History not found",
         (deleteHistory "u1" false "u1" "h1" [⟨"h1", "u1", 0, 5, none, none⟩]).2) := by
  exact ⟨update_delete_notfound_spec.1 "u1" "h1" ⟨none, some (JSVal.jnum 7)⟩ 0 9
           _ none (some 7) rfl rfl (by decide) (by decide),
         update_delete_notfound_spec.2.1 "u1" "h1" _ (by decide),
         update_delete_notfound_spec.2.2.2.2 "u1" "h1" _⟩

/-! ## C5 -/

/-- A failing datetime field check always carries the invalid-datetime
response. -/
theorem checkDatetimeField_error {tz : Int} {d : Option JSVal} {r : Resp}
    (h : checkDatetimeField tz d = .error r) :
    r = .err 400 "datetime must be a valid ISO 8601 date string" := by
  cases d with
  | none => exact Except.noConfusion h
  | some v =>
    cases v with
    | jnum q => injection h with h; exact h.symm
    | jstr s =>
      by_cases hv : isValidDatetime tz s = true
      · simp only [checkDatetimeField, if_pos hv] at h
        exact Except.noConfusion h
      · simp only [checkDatetimeField, if_neg hv] at h
        injection h with h; exact h.symm
    | jbool b => injection h with h; exact h.symm
    | jnull => injection h with h; exact h.symm

/-- A failing value field check always carries the invalid-value response. -/
theorem checkValueField_error {v : Option JSVal} {r : Resp}
    (h : checkValueField v = .error r) :
    r = .err 400 "value must be a positive number" := by
  cases v with
  | none => exact Except.noConfusion h
  | some w =>
    cases w with
    | jnum q =>
      by_cases hq : q ≤ 0
      · simp only [checkValueField, if_pos hq] at h
        injection h with h; exact h.symm
      · simp only [checkValueField, if_neg hq] at h
        exact Except.noConfusion h
    | jstr s => injection h with h; exact h.symm
    | jbool b => injection h with h; exact h.symm
    | jnull => injection h with h; exact h.symm

/-- C5: an update whose body carries neither recognized field fails with
"No fields to update" and changes no row; an update carrying only a positive
`value` rewrites exactly the matching rows to the same record with only
`value` (replaced by its stored NUMERIC(12, 2) quantization) and `updated_at`
replaced - datetime, id, owner and created_at untouched; and every successful
update returns a record whose `updated_at` is the rendering of the refreshed
timestamp. -/
theorem update_frame_spec :
    (∀ (u hid : String) (tz now : Int) (db : List HistoryRow),
      updateHistory u false u hid ⟨none, none⟩ tz now db
        = (.err 400 "No fields to update", db))
  ∧ (∀ (u hid : String) (q : ℚ) (tz now : Int) (db : List HistoryRow),
      0 < q →
      (updateHistory u false u hid ⟨none, some (JSVal.jnum q)⟩ tz now db).2
        = db.map (fun r => if rowMatches hid u r then
            { r with value := quantize2 q, updated_at := some now } else r))
  ∧ (∀ (u hid : String) (body : UpdateBody) (tz now : Int) (db : List HistoryRow)
        (st : Nat) (h : SerializedHistory),
      (updateHistory u false u hid body tz now db).1 = .ok st (.history h) →
      h.updated_at = some (toISOString now)) := by
  refine ⟨?_, ?_, ?_⟩
  · intro u hid tz now db
    simp [updateHistory, checkDatetimeField, checkValueField]
  · intro u hid q tz now db hq
    simp only [updateHistory]
    rw [if_neg (by simp : ¬(u ≠ u ∧ True))]
    simp only [checkDatetimeField, checkValueField, if_neg (not_le.mpr hq)]
    rw [if_neg (by simp : ¬(True ∧ (some q : Option ℚ) = none))]
    rcases hret : (db.filter (rowMatches hid u)) with _ | ⟨r0, rest⟩ <;> rfl
  · intro u hid body tz now db st h heq
    simp only [updateHistory] at heq
    rw [if_neg (by simp : ¬(u ≠ u ∧ True))] at heq
    split at heq
    · rename_i r hr
      rw [checkDatetimeField_error hr] at heq
      exact Resp.noConfusion heq
    · rename_i dtUpd hdt
      split at heq
      · rename_i r hr
        rw [checkValueField_error hr] at heq
        exact Resp.noConfusion heq
      · rename_i valUpd hval
        split at heq
        · exact Resp.noConfusion heq
        · split at heq
          · exact Resp.noConfusion heq
          · rename_i r0 rest hret
            injection heq with h1 h2
            injection h2 with h2
            rw [← h2]
            cases hfil : List.filter (rowMatches hid u) db with
            | nil =>
              rw [hfil] at hret
              exact List.noConfusion hret
            | cons a as =>
              rw [hfil] at hret
              simp only [List.map_cons] at hret
              injection hret with e1 e2
              rw [← e1]
              rfl

/-- C5 witness: over a one-row store, the empty body fails with
"No fields to update" leaving the row intact; a value-only update rewrites
only `value` and `updated_at`; the returned record's `updated_at` renders the
refreshed time 9. -/
theorem update_frame_spec_witness :
    updateHistory "u1" false "u1" "h1" ⟨none, none⟩ 0 9
        [⟨"h1", "u1", 3, 5, some 1, some 2⟩]
      = (.err 400 "No fields to update", [⟨"h1", "u1", 3, 5, some 1, some 2⟩])
  ∧ (updateHistory "u1" false "u1" "h1" ⟨none, some (JSVal.jnum 99)⟩ 0 9
        [⟨"h1", "u1", 3, 5, some 1, some 2⟩]).2
      = [⟨"h1", "u1", 3, 99, some 1, some 9⟩]
  ∧ (⟨"h1", "u1", toISOString 3, 99, some (toISOString 1),
        some (toISOString 9)⟩ : SerializedHistory).updated_at
      = some (toISOString 9) := by
  refine ⟨update_frame_spec.1 "u1" "h1" 0 9 _, ?_, ?_⟩
  · rw [update_frame_spec.2.1 "u1" "h1" 99 0 9 _ (by decide)]
    decide
  · exact update_frame_spec.2.2 "u1" "h1" ⟨none, some (JSVal.jnum 99)⟩ 0 9
      [⟨"h1", "u1", 3, 5, some 1, some 2⟩] 200 _ (by decide)

/-! ## C6 -/

/-- A create request that passes every check inserts the row owned by the
path user id (with database-generated id and timestamps) and answers 201 with
the serialized created row. -/
theorem createHistory_valid (u : String) (adm : Bool) (newId s : String)
    (q : ℚ) (tz ms now : Int) (db : List HistoryRow)
    (hq : 0 < q) (hms : jsNewDate tz s = some ms) :
    createHistory u adm u ⟨some (JSVal.jstr s), some (JSVal.jnum q)⟩ tz newId now db
      = (.ok 201 (.history
          { id := newId, user_id := u, datetime := toISOString ms,
            value := quantize2 q, created_at := some (toISOString now),
            updated_at := some (toISOString now) }),
         db ++ [{ id := newId, user_id := u, datetime := ms,
                  value := quantize2 q,
                  created_at := some now, updated_at := some now }]) := by
  have hs : s ≠ "" := by
    intro he
    rw [he, show jsNewDate tz "" = none from rfl] at hms
    exact Option.noConfusion hms
  have hvalid : isValidDatetime tz s = true := by
    unfold isValidDatetime
    rw [hms]
    rfl
  simp [createHistory, jsFalsy, hs, hvalid, hms, not_le.mpr hq, serializeHistory]

/-- C6: a create request (with authorization passing) fails with
"datetime and value are required" when either field is absent; fails with
"value must be a positive number" when the value is present but not a number
strictly greater than 0; fails with the distinct message
"datetime must be a valid ISO 8601 date string" when the datetime is a
non-empty string the date validator rejects; and otherwise inserts the row
owned by the path user id (its value stored with the NUMERIC(12, 2)
quantization) and answers 201 with the serialized created row. -/
theorem create_validation_spec :
    (∀ (u newId : String) (body : CreateBody) (tz now : Int)
        (db : List HistoryRow),
      body.datetime = none ∨ body.value = none →
      createHistory u false u body tz newId now db
        = (.err 400 "datetime and value are required", db))
  ∧ (∀ (u newId s : String) (v : JSVal) (tz now : Int) (db : List HistoryRow),
      s ≠ "" → (∀ q : ℚ, v = JSVal.jnum q → q ≤ 0) → v ≠ JSVal.jnull →
      createHistory u false u ⟨some (JSVal.jstr s), some v⟩ tz newId now db
        = (.err 400 "value must be a positive number", db))
  ∧ (∀ (u newId s : String) (q : ℚ) (tz now : Int) (db : List HistoryRow),
      s ≠ "" → 0 < q → isValidDatetime tz s = false →
      createHistory u false u ⟨some (JSVal.jstr s), some (JSVal.jnum q)⟩
          tz newId now db
        = (.err 400 "datetime must be a valid ISO 8601 date string", db))
  ∧ Resp.err 400 "datetime must be a valid ISO 8601 date string"
      ≠ Resp.err 400 "datetime and value are required"
  ∧ (∀ (u newId s : String) (q : ℚ) (tz ms now : Int) (db : List HistoryRow),
      0 < q → jsNewDate tz s = some ms →
      createHistory u false u ⟨some (JSVal.jstr s), some (JSVal.jnum q)⟩
          tz newId now db
        = (.ok 201 (.history
            { id := newId, user_id := u, datetime := toISOString ms,
              value := quantize2 q, created_at := some (toISOString now),
              updated_at := some (toISOString now) }),
           db ++ [{ id := newId, user_id := u, datetime := ms,
                    value := quantize2 q,
                    created_at := some now, updated_at := some now }])) := by
  refine ⟨?_, ?_, ?_, by decide, ?_⟩
  · intro u newId body tz now db hmiss
    rcases hmiss with hd | hv
    · simp [createHistory, jsFalsy, hd]
    · simp [createHistory, hv]
  · intro u newId s v tz now db hs hnum hnull
    cases v with
    | jnum q =>
      have hq := hnum q rfl
      simp [createHistory, jsFalsy, hs, hq]
    | jstr t => simp [createHistory, jsFalsy, hs]
    | jbool b => simp [createHistory, jsFalsy, hs]
    | jnull => exact absurd rfl hnull
  · intro u newId s q tz now db hs hq hinvalid
    simp [createHistory, jsFalsy, hs, not_le.mpr hq, hinvalid]
  · intro u newId s q tz ms now db hq hms
    exact createHistory_valid u false newId s q tz ms now db hq hms

/-- C6 witness: the four outcomes at concrete inputs - a missing datetime, a
zero value, an unparseable datetime, and a fully valid creation returning the
serialized row with 201 and appending the owned row. -/
theorem create_validation_spec_witness :
    createHistory "u1" false "u1" ⟨none, some (JSVal.jnum 5)⟩ 0 "h1" 0 []
      = (.err 400 "datetime and value are required", [])
  ∧ createHistory "u1" false "u1"
        ⟨some (JSVal.jstr "2024-01-15"), some (JSVal.jnum 0)⟩ 0 "h1" 0 []
      = (.err 400 "value must be a positive number", [])
  ∧ createHistory "u1" false "u1"
        ⟨some (JSVal.jstr "not-a-date"), some (JSVal.jnum 5)⟩ 0 "h1" 0 []
      = (.err 400 "datetime must be a valid ISO 8601 date string", [])
  ∧ createHistory "u1" false "u1"
        ⟨some (JSVal.jstr "2024-01-15"), some (JSVal.jnum 5)⟩ 0 "h1" 7 []
      = (.ok 201 (.history
          { id := "h1", user_id := "u1", datetime := toISOString 1705276800000,
            value := 5, created_at := some (toISOString 7),
            updated_at := some (toISOString 7) }),
         [{ id := "h1", user_id := "u1", datetime := 1705276800000, value := 5,
            created_at := some 7, updated_at := some 7 }]) := by
  refine ⟨create_validation_spec.1 "u1" "h1" _ 0 0 _ (Or.inl rfl),
          create_validation_spec.2.1 "u1" "h1" "2024-01-15" _ 0 0 _ (by decide)
            (fun q hq => by cases hq; exact le_refl 0) (by decide),
          create_validation_spec.2.2.1 "u1" "h1" "not-a-date" 5 0 0 _ (by decide)
            (by decide) (by decide), ?_⟩
  rw [create_validation_spec.2.2.2.2 "u1" "h1" "2024-01-15" 5 0 1705276800000
        7 [] (by decide) (by decide)]
  decide

/-! ## C7 -/

/-- Listing with default query parameters over a store holding a single row of
the requested owner returns exactly that row, serialized. -/
theorem list_single_row (u : String) (adm : Bool) (row : HistoryRow)
    (hrow : row.user_id = u) :
    listHistories u adm u ⟨none, none, none⟩ [row]
      = (.ok 200 (.histories [serializeHistory row]), [row]) := by
  have hl : effectiveLimit none = 50 := by decide
  have ho : effectiveOffset none = 0 := by decide
  simp [listHistories, hl, ho, ascOrder, sortRows, insertByLe, hrow]

/-- C7 counterexample: the claim as stated is false of the program because the
value column is NUMERIC(12, 2): creating with the strictly positive input
1/200 (the decimal 0.005) and listing immediately returns the rounded value
1/100 (0.01), not the input number. -/
theorem roundtrip_claim_counterexample :
    (0 : ℚ) < mkRat 1 200
  ∧ jsNewDate 0 "2024-01-15T10:30:00.000Z" = some 1705314600000
  ∧ (listHistories "u1" false "u1" ⟨none, none, none⟩
        (createHistory "u1" false "u1"
          ⟨some (JSVal.jstr "2024-01-15T10:30:00.000Z"),
           some (JSVal.jnum (mkRat 1 200))⟩ 0 "h1" 0 []).2).1
      = .ok 200 (.histories
          [{ id := "h1", user_id := "u1", datetime := "2024-01-15T10:30:00.000Z",
             value := mkRat 1 100, created_at := some "1970-01-01T00:00:00.000Z",
             updated_at := some "1970-01-01T00:00:00.000Z" }])
  ∧ mkRat 1 100 ≠ mkRat 1 200 := by
  decide

/-- C7 (amended): for every strictly positive value that the NUMERIC(12, 2)
column stores exactly (its quantization to two fractional digits is itself)
and every parseable datetime string, create (starting from an empty store)
answers 201 with a record whose serialized value equals the input number and
whose datetime is the ISO-8601 rendering of the parsed instant, and an
immediately following list returns exactly that record. -/
theorem create_then_list_roundtrip (u newId : String) (adm : Bool) (s : String)
    (q : ℚ) (tz ms now : Int) (hq : 0 < q) (hrep : quantize2 q = q)
    (hms : jsNewDate tz s = some ms) :
    (createHistory u adm u ⟨some (JSVal.jstr s), some (JSVal.jnum q)⟩
        tz newId now []).1
      = .ok 201 (.history
          { id := newId, user_id := u, datetime := toISOString ms, value := q,
            created_at := some (toISOString now),
            updated_at := some (toISOString now) })
  ∧ (listHistories u adm u ⟨none, none, none⟩
        (createHistory u adm u ⟨some (JSVal.jstr s), some (JSVal.jnum q)⟩
          tz newId now []).2).1
      = .ok 200 (.histories
          [{ id := newId, user_id := u, datetime := toISOString ms, value := q,
             created_at := some (toISOString now),
             updated_at := some (toISOString now) }]) := by
  have hc := createHistory_valid u adm newId s q tz ms now [] hq hms
  rw [hrep] at hc
  constructor
  · rw [hc]
  · rw [hc]
    have hl := list_single_row u adm
      { id := newId, user_id := u, datetime := ms, value := q,
        created_at := some now, updated_at := some now } rfl
    simp only [List.nil_append]
    rw [hl]
    rfl

/-- C7 witness: 42 is its own two-digit quantization; creating value 42 at
"2024-01-15T10:30:00.000Z" and listing immediately returns the record with
that value and with the datetime rendered back as the very same ISO string. -/
theorem create_then_list_roundtrip_witness :
    (0 : ℚ) < 42
  ∧ jsNewDate 0 "2024-01-15T10:30:00.000Z" = some 1705314600000
  ∧ (createHistory "u1" false "u1"
        ⟨some (JSVal.jstr "2024-01-15T10:30:00.000Z"), some (JSVal.jnum 42)⟩
        0 "h1" 0 []).1
      = .ok 201 (.history
          { id := "h1", user_id := "u1", datetime := "2024-01-15T10:30:00.000Z",
            value := 42, created_at := some "1970-01-01T00:00:00.000Z",
            updated_at := some "1970-01-01T00:00:00.000Z" })
  ∧ (listHistories "u1" false "u1" ⟨none, none, none⟩
        (createHistory "u1" false "u1"
          ⟨some (JSVal.jstr "2024-01-15T10:30:00.000Z"), some (JSVal.jnum 42)⟩
          0 "h1" 0 []).2).1
      = .ok 200 (.histories
          [{ id := "h1", user_id := "u1", datetime := "2024-01-15T10:30:00.000Z",
             value := 42, created_at := some "1970-01-01T00:00:00.000Z",
             updated_at := some "1970-01-01T00:00:00.000Z" }]) := by
  have h := create_then_list_roundtrip "u1" "h1" false "2024-01-15T10:30:00.000Z"
    42 0 1705314600000 0 (by decide) (by decide) (by decide)
  refine ⟨by decide, by decide, ?_, ?_⟩
  · rw [h.1]; decide
  · rw [h.2]; decide

/-! ## C9 -/

/-- C9: a missing (or empty, hence falsy) Authorization header yields 401
"Authorization header required"; a header that does not split as `Bearer`
followed by a non-empty token yields 401 "Invalid authorization format. Use:
Bearer <token>"; a verified token whose principal is anonymous yields the 403
"Anonymous users cannot access this resource", distinct from both 401 cases;
and on success the downstream chain runs with exactly the context
`{userId := uid, userEmail := email, siteAdmin := isAdmin email}` and its
response is returned unchanged. -/
theorem authGate_spec :
    (∀ (verify : String → Except Unit DecodedToken)
        (isAdmin : Option String → Bool) (next : AuthCtx → Except Unit Resp),
      firebaseAuthMiddleware verify isAdmin none next
        = .err 401 "Authorization header required")
  ∧ (∀ (verify : String → Except Unit DecodedToken)
        (isAdmin : Option String → Bool) (next : AuthCtx → Except Unit Resp)
        (h : String),
      h ≠ "" →
      ((jsSplitSpace h).headD "" ≠ "Bearer"
        ∨ ((jsSplitSpace h).drop 1).headD "" = "") →
      firebaseAuthMiddleware verify isAdmin (some h) next
        = .err 401 "Invalid authorization format. Use: Bearer <token>")
  ∧ (∀ (verify : String → Except Unit DecodedToken)
        (isAdmin : Option String → Bool) (next : AuthCtx → Except Unit Resp)
        (h t : String) (tok : DecodedToken),
      jsSplitSpace h = ["Bearer", t] → t ≠ "" →
      verify t = .ok tok → tok.anonymous = true →
      firebaseAuthMiddleware verify isAdmin (some h) next
        = .err 403 "Anonymous users cannot access this resource")
  ∧ (∀ (verify : String → Except Unit DecodedToken)
        (isAdmin : Option String → Bool) (next : AuthCtx → Except Unit Resp)
        (h t : String) (tok : DecodedToken) (r : Resp),
      jsSplitSpace h = ["Bearer", t] → t ≠ "" →
      verify t = .ok tok → tok.anonymous = false →
      next ⟨tok.uid, tok.email, isAdmin tok.email⟩ = .ok r →
      firebaseAuthMiddleware verify isAdmin (some h) next = r)
  ∧ Resp.err 403 "Anonymous users cannot access this resource"
      ≠ Resp.err 401 "Authorization header required"
  ∧ Resp.err 403 "Anonymous users cannot access this resource"
      ≠ Resp.err 401 "Invalid authorization format. Use: Bearer <token>" := by
  refine ⟨fun _ _ _ => rfl, ?_, ?_, ?_, by decide, by decide⟩
  · intro verify isAdmin next h hne hcond
    simp only [firebaseAuthMiddleware]
    rw [if_neg hne, if_pos hcond]
  · intro verify isAdmin next h t tok hsplit ht hverify hanon
    have hne : h ≠ "" := by
      intro he
      rw [he, show jsSplitSpace "" = [""] from rfl] at hsplit
      simp at hsplit
    simp [firebaseAuthMiddleware, hsplit, hne, ht, hverify, hanon]
  · intro verify isAdmin next h t tok r hsplit ht hverify hanon hnext
    have hne : h ≠ "" := by
      intro he
      rw [he, show jsSplitSpace "" = [""] from rfl] at hsplit
      simp at hsplit
    simp [firebaseAuthMiddleware, hsplit, hne, ht, hverify, hanon, hnext]

/-- C9 witness: the middleware exercised with the stub verifier at a missing
header, a non-Bearer header, a bare "Bearer", an anonymous principal, and a
successful request whose handler sees the uid of the verified token. -/
theorem authGate_spec_witness :
    firebaseAuthMiddleware verifyStub admStub none
        (fun _ => .ok (.ok 200 .nullData))
      = .err 401 "Authorization header required"
  ∧ firebaseAuthMiddleware verifyStub admStub (some "Basic xyz")
        (fun _ => .ok (.ok 200 .nullData))
      = .err 401 "Invalid authorization format. Use: Bearer <token>"
  ∧ firebaseAuthMiddleware verifyStub admStub (some "Bearer")
        (fun _ => .ok (.ok 200 .nullData))
      = .err 401 "Invalid authorization format. Use: Bearer <token>"
  ∧ firebaseAuthMiddleware verifyStub admStub (some "Bearer anon")
        (fun _ => .ok (.ok 200 .nullData))
      = .err 403 "Anonymous users cannot access this resource"
  ∧ firebaseAuthMiddleware verifyStub admStub (some "Bearer good")
        (fun ctx => .ok (.ok 200 (.history
          ⟨ctx.userId, "", "", 1, none, none⟩)))
      = .ok 200 (.history ⟨"user-1", "", "", 1, none, none⟩) := by
  exact ⟨authGate_spec.1 verifyStub admStub _,
         authGate_spec.2.1 verifyStub admStub _ "Basic xyz" (by decide)
           (Or.inl (by decide)),
         authGate_spec.2.1 verifyStub admStub _ "Bearer" (by decide)
           (Or.inr (by decide)),
         authGate_spec.2.2.1 verifyStub admStub _ "Bearer anon" "anon"
           ⟨"anon-1", none, true⟩ (by decide) (by decide) rfl rfl,
         authGate_spec.2.2.2.1 verifyStub admStub _ "Bearer good" "good"
           ⟨"user-1", some "user@example.com", false⟩ _ (by decide) (by decide)
           rfl rfl rfl⟩
